import Mathlib

/-!
Verification development for the neuro-db telemetry subsystem.

Shallow embedding of `src/neurodb/executor.py` (`SafeQueryExecutor`) and
`src/neurodb/telemetry.py` (`MySQLTelemetryCollector`,
`PostgreSQLTelemetryCollector`, `create_telemetry_collector`).

The external connection capability is modelled as a `Behaviour`: a function
from the index of the statement being sent (how many statements the
connection has received so far) and the statement text to an `Outcome`
(tabular rows, a bare acknowledgement without a result set, or an error).
The connection state threaded through every operation is the trace of
statement texts sent so far, in order.  `pd.read_sql` over a SQLAlchemy
connection executes the statement on the connection and raises
`ResourceClosedError` after execution when the statement returned no result
set; `connection.execute` executes the statement and returns a `Result`
object (a bare completion signal).  Both are modelled as one `send`.
-/

namespace NeuroDB

/-- A cell of a tabular result: either an integer or a string value
(the two shapes the telemetry code ever inspects). -/
inductive Cell
  | intC (i : Int)
  | strC (s : String)
  deriving DecidableEq

/-- A pandas DataFrame: named columns and rows of cells. -/
structure DataFrame where
  columns : List String
  rows : List (List Cell)
  deriving DecidableEq

/-- `df.empty` in pandas: no rows. -/
def DataFrame.isEmpt (df : DataFrame) : Bool := df.rows.isEmpty

/-- Digits-only parse of a nonempty character list, as Python `int` does
for an unsigned decimal literal. -/
def parseNatDigits (cs : List Char) : Option Nat :=
  if cs ≠ [] ∧ cs.all Char.isDigit then
    some (cs.foldl (fun a c => a * 10 + (c.toNat - 48)) 0)
  else none

/-- Python `int(s)` on a string: optional sign, then decimal digits;
`none` models the `ValueError` raised on anything else. -/
def pyIntOfString (s : String) : Option Int :=
  match s.trim.toList with
  | '-' :: rest => (parseNatDigits rest).map (fun n => -(n : Int))
  | '+' :: rest => (parseNatDigits rest).map (fun n => (n : Int))
  | cs => (parseNatDigits cs).map (fun n => (n : Int))

/-- Python `int(cell)`: identity on integers, decimal parse on strings,
`none` modelling a raised `ValueError`. -/
def pyInt : Cell → Option Int
  | .intC i => some i
  | .strC s => pyIntOfString s

/-- Outcome of sending one statement to the connection: a tabular result,
a bare acknowledgement with no result set, or a raised error. -/
inductive Outcome
  | rows (df : DataFrame)
  | ack
  | err
  deriving DecidableEq

/-- A connection behaviour: the outcome the connection produces for the
`n`-th statement sent (0-based) with the given text. -/
abbrev Behaviour := Nat → String → Outcome

/-- Send one statement to the connection: look up the outcome at the
current position and append the statement text to the trace. -/
def send (b : Behaviour) (st : List String) (stmt : String) :
    Outcome × List String :=
  (b st.length stmt, st ++ [stmt])

/-- What `SafeQueryExecutor.execute_query` hands back on success: a pandas
DataFrame, or a bare SQLAlchemy `Result` completion signal. -/
inductive QueryResult
  | frame (df : DataFrame)
  | completion
  deriving DecidableEq

/-- The one exception class the executor raises: `QueryExecutionError`,
carrying the failed statement text. -/
inductive PyError
  | queryExecutionError (stmt : String)
  deriving DecidableEq

/-- Bound-parameter mapping for a statement. -/
abbrev Params := List (String × Cell)

/-- `SafeQueryExecutor.execute_query` (executor.py lines 23-66).
With `return_results = false` the statement is executed once via
`connection.execute` and a completion signal is returned.  With
`return_results = true` the tabular read is attempted first
(`pd.read_sql`, one execution on the connection); if the driver signals
"no result set" (`ResourceClosedError`, the `ack` outcome) the fallback
executes the statement again via `connection.execute`.  Any raised error
is caught: with `raise_on_fail` it becomes `QueryExecutionError`,
otherwise the call returns `none`. -/
def execute_query (b : Behaviour) (st : List String) (query : String)
    (_params : Option Params) (raise_on_fail : Bool) (return_results : Bool) :
    Except PyError (Option QueryResult) × List String :=
  if return_results = false then
    match send b st query with
    | (.err, st1) =>
        if raise_on_fail then (.error (.queryExecutionError query), st1)
        else (.ok none, st1)
    | (_, st1) => (.ok (some .completion), st1)
  else
    match send b st query with
    | (.rows df, st1) => (.ok (some (.frame df)), st1)
    | (.ack, st1) =>
        match send b st1 query with
        | (.err, st2) =>
            if raise_on_fail then (.error (.queryExecutionError query), st2)
            else (.ok none, st2)
        | (_, st2) => (.ok (some .completion), st2)
    | (.err, st1) =>
        if raise_on_fail then (.error (.queryExecutionError query), st1)
        else (.ok none, st1)

/-- `SafeQueryExecutor.execute_command` (executor.py lines 68-88):
runs `execute_query` with `return_results = false` (and the default
`raise_on_fail = false`), returning `true` unless that call raised. -/
def execute_command (b : Behaviour) (st : List String) (command : String)
    (params : Option Params) : Bool × List String :=
  match execute_query b st command params false false with
  | (.ok _, st1) => (true, st1)
  | (.error _, st1) => (false, st1)

/-- Index of a column name in a frame, `df.columns.get_loc` style. -/
def colIdx (df : DataFrame) (col : String) : Option Nat :=
  df.columns.findIdx? (· == col)

/-- `result.iloc[0][col]`: the named cell of the first row, `none`
modelling a raised lookup error. -/
def cell0 (df : DataFrame) (col : String) : Option Cell :=
  match df.rows with
  | [] => none
  | r :: _ =>
      match colIdx df col with
      | some i => r[i]?
      | none => none

/-- `result[col].tolist()`: the named column as a list of cells
(rows are uniform in a pandas frame, so the default is never read). -/
def colList (df : DataFrame) (col : String) : List Cell :=
  match colIdx df col with
  | some i => df.rows.map (fun r => r.getD i (.strC ""))
  | none => []

/-- Shared shape of `_get_used_indexes` (telemetry.py lines 90-104 and
189-201): run the probe leniently; on a DataFrame whose columns contain
`col`, return that column as a list, else the empty list; every failure
path yields the empty list. -/
def indexListProbe (b : Behaviour) (st : List String) (stmt col : String) :
    List Cell × List String :=
  match execute_query b st stmt none false true with
  | (.ok (some (.frame df)), st1) =>
      if df.columns.contains col then (colList df col, st1) else ([], st1)
  | (_, st1) => ([], st1)

/-- Shared shape of `_get_table_scans` and `_get_temp_tables`
(telemetry.py lines 106-132 and 203-230): run the probe leniently; on a
DataFrame with the named column and at least one row, return
`int(result.iloc[0][col])`; a parse failure (`ValueError`) is caught and
every failure path yields 0. -/
def intStatusProbe (b : Behaviour) (st : List String) (stmt col : String) :
    Int × List String :=
  match execute_query b st stmt none false true with
  | (.ok (some (.frame df)), st1) =>
      if df.columns.contains col && !df.isEmpt then
        (((cell0 df col).bind pyInt).getD 0, st1)
      else (0, st1)
  | (_, st1) => (0, st1)

/-- Shared shape of `_get_memory_usage` (telemetry.py lines 134-146 and
232-246): like `intStatusProbe` but every failure path yields `none`. -/
def optIntProbe (b : Behaviour) (st : List String) (stmt col : String) :
    Option Int × List String :=
  match execute_query b st stmt none false true with
  | (.ok (some (.frame df)), st1) =>
      if df.columns.contains col && !df.isEmpt then
        ((cell0 df col).bind pyInt, st1)
      else (none, st1)
  | (_, st1) => (none, st1)

/-- The statement texts and result-column names of one collector variant;
the two collector classes differ only in these constants. -/
structure CollectorSpec where
  armStmt : String
  idxStmt : String
  idxCol : String
  scanStmt : String
  scanCol : String
  tmpStmt : String
  tmpCol : String
  memStmt : String
  memCol : String

/-- Constants of `MySQLTelemetryCollector` (telemetry.py lines 50-146). -/
def mysqlSpec : CollectorSpec where
  armStmt := "SET profiling = 1"
  idxStmt := "SELECT index_name FROM information_schema.statistics WHERE table_schema = DATABASE()"
  idxCol := "index_name"
  scanStmt := "SHOW STATUS LIKE \x27Handler_read%\x27"
  scanCol := "Value"
  tmpStmt := "SHOW STATUS LIKE \x27Created_tmp%\x27"
  tmpCol := "Value"
  memStmt := "SHOW STATUS LIKE \x27Memory_used\x27"
  memCol := "Value"

/-- Constants of `PostgreSQLTelemetryCollector` (telemetry.py lines
149-246). -/
def pgSpec : CollectorSpec where
  armStmt := "SET log_statement_stats = on"
  idxStmt := "SELECT indexname FROM pg_indexes WHERE schemaname = current_schema()"
  idxCol := "indexname"
  scanStmt := "SELECT COALESCE(sum(seq_scan), 0) as scans FROM pg_stat_all_tables"
  scanCol := "scans"
  tmpStmt := "SELECT COALESCE(sum(temp_files), 0) as temp_tables FROM pg_stat_database"
  tmpCol := "temp_tables"
  memStmt := "SELECT setting::bigint * pg_size_bytes(unit) as bytes FROM pg_settings WHERE name = \x27work_mem\x27"
  memCol := "bytes"

/-- `_get_used_indexes` of the variant described by `cs`. -/
def get_used_indexes (cs : CollectorSpec) (b : Behaviour) (st : List String) :
    List Cell × List String :=
  indexListProbe b st cs.idxStmt cs.idxCol

/-- `_get_table_scans` of the variant described by `cs`. -/
def get_table_scans (cs : CollectorSpec) (b : Behaviour) (st : List String) :
    Int × List String :=
  intStatusProbe b st cs.scanStmt cs.scanCol

/-- `_get_temp_tables` of the variant described by `cs`. -/
def get_temp_tables (cs : CollectorSpec) (b : Behaviour) (st : List String) :
    Int × List String :=
  intStatusProbe b st cs.tmpStmt cs.tmpCol

/-- `_get_memory_usage` of the variant described by `cs`. -/
def get_memory_usage (cs : CollectorSpec) (b : Behaviour) (st : List String) :
    Option Int × List String :=
  optIntProbe b st cs.memStmt cs.memCol

/-- `QueryMetrics` (telemetry.py lines 18-47).  `execution_time` and
`timestamp` are modelled as integers supplied by the clock environment. -/
structure QueryMetrics where
  query : String
  params : Option Params
  execution_time : Int
  row_count : Nat
  timestamp : Int
  indexes_used : List Cell
  table_scans : Int
  temp_tables : Int
  memory_used : Option Int
  deriving DecidableEq

/-- `len(result) if isinstance(result, pd.DataFrame) else 0`. -/
def rowCountOf : Option QueryResult → Nat
  | some (.frame df) => df.rows.length
  | _ => 0

/-- `collect_metrics` of either collector class (telemetry.py lines
58-88 and 157-187), parametric in the variant's constants: arm the
instrumentation through `execute_command` (outcome ignored), run the
primary query strictly (`raise_on_fail = true`), then on success harvest
the four probes in order and assemble the record.  `t0` and `t1` are the
two `time.time()` samples around the primary query and `ts` the
`datetime.now()` sample. -/
def collect_metrics (cs : CollectorSpec) (b : Behaviour) (t0 t1 ts : Int)
    (q : String) (p : Option Params) (st : List String) :
    Except PyError (Option QueryResult × QueryMetrics) × List String :=
  let arm := execute_command b st cs.armStmt none
  match execute_query b arm.2 q p true true with
  | (.error e, st2) => (.error e, st2)
  | (.ok result, st2) =>
      let idx := get_used_indexes cs b st2
      let scans := get_table_scans cs b idx.2
      let tmp := get_temp_tables cs b scans.2
      let mem := get_memory_usage cs b tmp.2
      (.ok (result,
        { query := q, params := p, execution_time := t1 - t0,
          row_count := rowCountOf result, timestamp := ts,
          indexes_used := idx.1, table_scans := scans.1,
          temp_tables := tmp.1, memory_used := mem.1 }), mem.2)

/-- `MySQLTelemetryCollector.collect_metrics`. -/
def mysql_collect_metrics (b : Behaviour) (t0 t1 ts : Int) (q : String)
    (p : Option Params) (st : List String) :
    Except PyError (Option QueryResult × QueryMetrics) × List String :=
  collect_metrics mysqlSpec b t0 t1 ts q p st

/-- `PostgreSQLTelemetryCollector.collect_metrics`. -/
def pg_collect_metrics (b : Behaviour) (t0 t1 ts : Int) (q : String)
    (p : Option Params) (st : List String) :
    Except PyError (Option QueryResult × QueryMetrics) × List String :=
  collect_metrics pgSpec b t0 t1 ts q p st

/-- The factory argument: Python lets any value reach
`create_telemetry_collector`, so the model widens the closed
`DatabaseType` enumeration with arbitrary other values. -/
inductive DatabaseTypeLike
  | mysql
  | postgresql
  | other (tag : String)
  deriving DecidableEq

/-- The collector class picked by the factory. -/
inductive CollectorKind
  | mysqlCollector
  | postgresqlCollector
  deriving DecidableEq

/-- The `ValueError("Unsupported database type: ...")` the factory
raises, carrying the offending variant. -/
inductive FactoryError
  | unsupportedBackend (t : DatabaseTypeLike)
  deriving DecidableEq

/-- The `collectors` dictionary lookup (telemetry.py lines 255-260). -/
def collectorsGet : DatabaseTypeLike → Option CollectorKind
  | .mysql => some .mysqlCollector
  | .postgresql => some .postgresqlCollector
  | .other _ => none

/-- `create_telemetry_collector` (telemetry.py lines 249-264): pure
dictionary dispatch; the connection trace is passed through untouched
because the body never touches the connection. -/
def create_telemetry_collector (dbType : DatabaseTypeLike)
    (st : List String) : Except FactoryError CollectorKind × List String :=
  match collectorsGet dbType with
  | some c => (.ok c, st)
  | none => (.error (.unsupportedBackend dbType), st)

/-- `true` exactly on `Except.ok`. -/
def isOkB {ε α : Type} : Except ε α → Bool
  | .ok _ => true
  | .error _ => false

/-- Whether the primary query succeeds when sent as the `n`-th statement
through `execute_query` with `return_results = true`: the first send must
not error, and if it yields a bare acknowledgement the fallback re-send
at position `n + 1` must not error either. -/
def primaryOk (b : Behaviour) (n : Nat) (q : String) : Bool :=
  match b n q with
  | .rows _ => true
  | .ack =>
      match b (n + 1) q with
      | .err => false
      | _ => true
  | .err => false

/-! ### Concrete connection behaviours used to exercise the model -/

/-- The empty DataFrame. -/
def dfE : DataFrame := ⟨[], []⟩

/-- A one-cell frame whose `Value` column holds the integer -7, as a
backend stub reporting a negative status counter would. -/
def df8 : DataFrame := ⟨["Value"], [[Cell.intC (-7)]]⟩

/-- A connection answering every statement with an empty tabular result. -/
def bRows : Behaviour := fun _ _ => Outcome.rows dfE

/-- A connection acknowledging every statement without a result set. -/
def bAck : Behaviour := fun _ _ => Outcome.ack

/-- A connection whose first statement (the arm step) fails and which
answers everything else with rows. -/
def bArmFail : Behaviour := fun n _ =>
  if n = 0 then Outcome.err else Outcome.rows dfE

/-- A connection that accepts the arm statement and rejects everything
after it, so the primary query fails. -/
def bPrimFail : Behaviour := fun n _ =>
  if n = 0 then Outcome.rows dfE else Outcome.err

/-- A connection that accepts the arm statement and the primary query and
rejects every later statement (all harvest probes fail). -/
def bStopAfterPrimary : Behaviour := fun n _ =>
  if n ≤ 1 then Outcome.rows dfE else Outcome.err

/-- A connection that reports the negative counter frame to the third
harvest position (the MySQL table-scan probe) and empty rows elsewhere. -/
def bNegCounter : Behaviour := fun n _ =>
  if n = 3 then Outcome.rows df8 else Outcome.rows dfE

/-! ### Executor lemmas -/

lemma execute_command_eq (b : Behaviour) (st : List String) (cmd : String)
    (p : Option Params) : execute_command b st cmd p = (true, st ++ [cmd]) := by
  unfold execute_command execute_query send
  cases hb : b st.length cmd <;> simp [hb]

lemma execq_rows (b : Behaviour) (st : List String) (q : String)
    (p : Option Params) (rf : Bool) (df : DataFrame)
    (hb : b st.length q = .rows df) :
    execute_query b st q p rf true = (.ok (some (.frame df)), st ++ [q]) := by
  unfold execute_query send
  simp [hb]

lemma execq_err_lenient (b : Behaviour) (st : List String) (q : String)
    (p : Option Params) (hb : b st.length q = .err) :
    execute_query b st q p false true = (.ok none, st ++ [q]) := by
  unfold execute_query send
  simp [hb]

lemma execq_ok_of_primaryOk (b : Behaviour) (st : List String) (q : String)
    (p : Option Params) (h : primaryOk b st.length q = true) :
    ∃ r st2, execute_query b st q p true true = (.ok r, st2) ∧
      (st2 = st ++ [q] ∨ st2 = st ++ [q, q]) := by
  unfold primaryOk at h
  unfold execute_query send
  cases hb : b st.length q with
  | rows df => exact ⟨some (.frame df), st ++ [q], by simp [hb], Or.inl rfl⟩
  | ack =>
      rw [hb] at h
      cases hb2 : b (st.length + 1) q with
      | rows df =>
          refine ⟨some .completion, st ++ [q, q], ?_, Or.inr rfl⟩
          simp [hb, List.length_append, hb2]
      | ack =>
          refine ⟨some .completion, st ++ [q, q], ?_, Or.inr rfl⟩
          simp [hb, List.length_append, hb2]
      | err => rw [hb2] at h; simp at h
  | err => rw [hb] at h; simp at h

lemma execq_err_of_not_primaryOk (b : Behaviour) (st : List String)
    (q : String) (p : Option Params) (h : primaryOk b st.length q = false) :
    ∃ st2, execute_query b st q p true true =
        (.error (.queryExecutionError q), st2) ∧
      (st2 = st ++ [q] ∨ st2 = st ++ [q, q]) := by
  unfold primaryOk at h
  unfold execute_query send
  cases hb : b st.length q with
  | rows df => rw [hb] at h; simp at h
  | ack =>
      rw [hb] at h
      cases hb2 : b (st.length + 1) q with
      | rows df => rw [hb2] at h; simp at h
      | ack => rw [hb2] at h; simp at h
      | err =>
          refine ⟨st ++ [q, q], ?_, Or.inr rfl⟩
          simp [hb, List.length_append, hb2]
  | err => exact ⟨st ++ [q], by simp [hb], Or.inl rfl⟩

lemma primaryOk_of_execq_ok (b : Behaviour) (st : List String) (q : String)
    (p : Option Params) (r : Option QueryResult)
    (h : (execute_query b st q p true true).1 = .ok r) :
    primaryOk b st.length q = true := by
  cases hpo : primaryOk b st.length q
  · obtain ⟨st2, he, -⟩ := execq_err_of_not_primaryOk b st q p hpo
    rw [he] at h
    simp at h
  · rfl

lemma execq_noack (b : Behaviour) (st : List String) (q : String)
    (p : Option Params) (rf : Bool) (hb : b st.length q ≠ .ack) :
    (execute_query b st q p rf true).2 = st ++ [q] := by
  unfold execute_query send
  cases hbv : b st.length q with
  | rows df => simp [hbv]
  | ack => exact absurd hbv hb
  | err => cases rf <;> simp [hbv]

lemma execq_trace (b : Behaviour) (st : List String) (q : String)
    (p : Option Params) (rf rr : Bool) :
    (execute_query b st q p rf rr).2 = st ++ [q] ∨
    (execute_query b st q p rf rr).2 = st ++ [q, q] := by
  unfold execute_query send
  cases rr with
  | false =>
      cases hb : b st.length q <;> [skip; skip; cases rf] <;> simp [hb]
  | true =>
      cases hb : b st.length q with
      | rows df => simp [hb]
      | ack =>
          cases hb2 : b (st.length + 1) q <;>
            [skip; skip; cases rf] <;>
            simp [hb, List.length_append, hb2]
      | err => cases rf <;> simp [hb]

lemma execq_frame_src (b : Behaviour) (st : List String) (q : String)
    (p : Option Params) (rf : Bool) (df : DataFrame)
    (h : (execute_query b st q p rf true).1 = .ok (some (.frame df))) :
    b st.length q = .rows df := by
  unfold execute_query send at h
  cases hb : b st.length q with
  | rows df2 => rw [hb] at h; simp at h; rw [h]
  | ack =>
      exfalso
      rw [hb] at h
      simp at h
      cases hb2 : b (st.length + 1) q <;> rw [hb2] at h <;>
        [simp at h; simp at h; cases rf <;> simp at h]
  | err =>
      exfalso
      rw [hb] at h
      cases rf <;> simp at h

lemma execq_never_err_lenient (b : Behaviour) (st : List String)
    (q : String) (p : Option Params) (rr : Bool) :
    isOkB (execute_query b st q p false rr).1 = true := by
  unfold execute_query send
  cases rr with
  | false => cases hb : b st.length q <;> simp [hb, isOkB]
  | true =>
      cases hb : b st.length q with
      | rows df => simp [hb, isOkB]
      | ack =>
          cases hb2 : b (st.length + 1) q <;>
            simp [hb, hb2, isOkB]
      | err => simp [hb, isOkB]

/-! ### Probe lemmas -/

lemma indexListProbe_trace (b : Behaviour) (st : List String)
    (stmt col : String) :
    (indexListProbe b st stmt col).2 =
      (execute_query b st stmt none false true).2 := by
  unfold indexListProbe
  rcases he : execute_query b st stmt none false true with ⟨r, st1⟩
  rcases r with r | r
  · rfl
  · rcases r with r | r
    · rfl
    · rcases r with df | _
      · simp only []
        split <;> rfl
      · rfl

lemma intStatusProbe_trace (b : Behaviour) (st : List String)
    (stmt col : String) :
    (intStatusProbe b st stmt col).2 =
      (execute_query b st stmt none false true).2 := by
  unfold intStatusProbe
  rcases he : execute_query b st stmt none false true with ⟨r, st1⟩
  rcases r with r | r
  · rfl
  · rcases r with r | r
    · rfl
    · rcases r with df | _
      · simp only []
        split <;> rfl
      · rfl

lemma optIntProbe_trace (b : Behaviour) (st : List String)
    (stmt col : String) :
    (optIntProbe b st stmt col).2 =
      (execute_query b st stmt none false true).2 := by
  unfold optIntProbe
  rcases he : execute_query b st stmt none false true with ⟨r, st1⟩
  rcases r with r | r
  · rfl
  · rcases r with r | r
    · rfl
    · rcases r with df | _
      · simp only []
        split <;> rfl
      · rfl

lemma indexListProbe_err (b : Behaviour) (st : List String)
    (stmt col : String) (hb : b st.length stmt = .err) :
    indexListProbe b st stmt col = ([], st ++ [stmt]) := by
  unfold indexListProbe
  rw [execq_err_lenient b st stmt none hb]

lemma intStatusProbe_err (b : Behaviour) (st : List String)
    (stmt col : String) (hb : b st.length stmt = .err) :
    intStatusProbe b st stmt col = (0, st ++ [stmt]) := by
  unfold intStatusProbe
  rw [execq_err_lenient b st stmt none hb]

lemma optIntProbe_err (b : Behaviour) (st : List String)
    (stmt col : String) (hb : b st.length stmt = .err) :
    optIntProbe b st stmt col = (none, st ++ [stmt]) := by
  unfold optIntProbe
  rw [execq_err_lenient b st stmt none hb]

lemma indexListProbe_tail (b : Behaviour) (st : List String)
    (stmt col : String) :
    ∃ tl, (indexListProbe b st stmt col).2 = st ++ tl ∧ stmt ∈ tl := by
  rw [indexListProbe_trace]
  rcases execq_trace b st stmt none false true with h | h <;> rw [h]
  · exact ⟨[stmt], rfl, by simp⟩
  · exact ⟨[stmt, stmt], rfl, by simp⟩

lemma intStatusProbe_tail (b : Behaviour) (st : List String)
    (stmt col : String) :
    ∃ tl, (intStatusProbe b st stmt col).2 = st ++ tl ∧ stmt ∈ tl := by
  rw [intStatusProbe_trace]
  rcases execq_trace b st stmt none false true with h | h <;> rw [h]
  · exact ⟨[stmt], rfl, by simp⟩
  · exact ⟨[stmt, stmt], rfl, by simp⟩

lemma optIntProbe_tail (b : Behaviour) (st : List String)
    (stmt col : String) :
    ∃ tl, (optIntProbe b st stmt col).2 = st ++ tl ∧ stmt ∈ tl := by
  rw [optIntProbe_trace]
  rcases execq_trace b st stmt none false true with h | h <;> rw [h]
  · exact ⟨[stmt], rfl, by simp⟩
  · exact ⟨[stmt, stmt], rfl, by simp⟩

lemma mem_of_getElemOpt {α : Type} (l : List α) (i : Nat) (a : α)
    (h : l[i]? = some a) : a ∈ l := by
  induction l generalizing i with
  | nil => simp at h
  | cons x xs ih =>
      cases i with
      | zero =>
          simp at h
          simp [h]
      | succ j =>
          simp at h
          exact List.mem_cons_of_mem x (ih j h)

lemma cell0_mem (df : DataFrame) (col : String) (c : Cell)
    (h : cell0 df col = some c) : ∃ r ∈ df.rows, c ∈ r := by
  unfold cell0 at h
  rcases hr : df.rows with _ | ⟨r, rs⟩
  · rw [hr] at h; exact absurd h (by simp)
  · rw [hr] at h
    rcases hi : colIdx df col with _ | i
    · rw [hi] at h; exact absurd h (by simp)
    · rw [hi] at h
      exact ⟨r, by simp [hr], mem_of_getElemOpt r i c h⟩

/-- Every integer value a behaviour can deliver through a tabular cell is
non-negative. -/
def CellsNonneg (b : Behaviour) : Prop :=
  ∀ n s df, b n s = Outcome.rows df →
    ∀ r ∈ df.rows, ∀ c ∈ r, ∀ i, pyInt c = some i → 0 ≤ i

lemma intStatusProbe_nonneg (b : Behaviour) (st : List String)
    (stmt col : String) (hc : CellsNonneg b) :
    0 ≤ (intStatusProbe b st stmt col).1 := by
  unfold intStatusProbe
  rcases he : execute_query b st stmt none false true with ⟨r, st1⟩
  rcases r with r | r
  · simp
  · rcases r with r | r
    · simp
    · rcases r with df | _
      · simp only []
        split
        · rcases hv : (cell0 df col).bind pyInt with _ | i
          · simp
          · obtain ⟨c, hcell, hpi⟩ := Option.bind_eq_some.mp hv
            obtain ⟨row, hrow, hcm⟩ := cell0_mem df col c hcell
            have hsrc : b st.length stmt = Outcome.rows df := by
              apply execq_frame_src b st stmt none false df
              rw [he]
            simpa using hc st.length stmt df hsrc row hrow c hcm i hpi
        · simp
      · simp

/-! ### Collector structure lemmas -/

lemma collect_metrics_err (cs : CollectorSpec) (b : Behaviour)
    (t0 t1 ts : Int) (q : String) (p : Option Params) (st st2 : List String)
    (e : PyError)
    (hq : execute_query b (st ++ [cs.armStmt]) q p true true =
      (.error e, st2)) :
    collect_metrics cs b t0 t1 ts q p st = (.error e, st2) := by
  unfold collect_metrics
  rw [execute_command_eq]
  simp only [hq]

lemma collect_metrics_ok (cs : CollectorSpec) (b : Behaviour)
    (t0 t1 ts : Int) (q : String) (p : Option Params) (st st2 : List String)
    (r : Option QueryResult)
    (hq : execute_query b (st ++ [cs.armStmt]) q p true true = (.ok r, st2)) :
    collect_metrics cs b t0 t1 ts q p st =
      (.ok (r,
        { query := q, params := p, execution_time := t1 - t0,
          row_count := rowCountOf r, timestamp := ts,
          indexes_used := (get_used_indexes cs b st2).1,
          table_scans :=
            (get_table_scans cs b (get_used_indexes cs b st2).2).1,
          temp_tables :=
            (get_temp_tables cs b
              (get_table_scans cs b (get_used_indexes cs b st2).2).2).1,
          memory_used :=
            (get_memory_usage cs b
              (get_temp_tables cs b
                (get_table_scans cs b
                  (get_used_indexes cs b st2).2).2).2).1 }),
       (get_memory_usage cs b
         (get_temp_tables cs b
           (get_table_scans cs b (get_used_indexes cs b st2).2).2).2).2) := by
  unfold collect_metrics
  rw [execute_command_eq]
  simp only [hq]

lemma collect_ok_of_primaryOk (cs : CollectorSpec) (b : Behaviour)
    (t0 t1 ts : Int) (q : String) (p : Option Params) (st : List String)
    (h : primaryOk b (st.length + 1) q = true) :
    isOkB (collect_metrics cs b t0 t1 ts q p st).1 = true := by
  obtain ⟨r, st2, hq, -⟩ :=
    execq_ok_of_primaryOk b (st ++ [cs.armStmt]) q p (by simpa using h)
  rw [collect_metrics_ok cs b t0 t1 ts q p st st2 r hq]
  rfl

lemma collect_err_char (cs : CollectorSpec) (b : Behaviour)
    (t0 t1 ts : Int) (q : String) (p : Option Params) (st : List String)
    (e : PyError)
    (h : (collect_metrics cs b t0 t1 ts q p st).1 = .error e) :
    primaryOk b (st.length + 1) q = false ∧
      e = PyError.queryExecutionError q := by
  cases hpo : primaryOk b (st.length + 1) q
  · obtain ⟨st2, hq, -⟩ :=
      execq_err_of_not_primaryOk b (st ++ [cs.armStmt]) q p (by simpa using hpo)
    rw [collect_metrics_err cs b t0 t1 ts q p st st2 _ hq] at h
    simp at h
    exact ⟨rfl, h.symm⟩
  · exfalso
    have hok := collect_ok_of_primaryOk cs b t0 t1 ts q p st hpo
    rw [h] at hok
    simp [isOkB] at hok

lemma collect_fail_spec (cs : CollectorSpec) (b : Behaviour)
    (t0 t1 ts : Int) (q : String) (p : Option Params) (st : List String)
    (hfail : primaryOk b (st.length + 1) q = false) :
    (collect_metrics cs b t0 t1 ts q p st).1 =
      .error (.queryExecutionError q) ∧
    ∀ s ∈ (collect_metrics cs b t0 t1 ts q p st).2.drop st.length,
      s = cs.armStmt ∨ s = q := by
  obtain ⟨st2, hq, hst2⟩ :=
    execq_err_of_not_primaryOk b (st ++ [cs.armStmt]) q p (by simpa using hfail)
  rw [collect_metrics_err cs b t0 t1 ts q p st st2 _ hq]
  refine ⟨rfl, ?_⟩
  intro s hs
  rcases hst2 with h2 | h2 <;> rw [h2] at hs <;>
    rw [List.append_assoc, List.drop_left] at hs <;> simpa using hs

lemma collect_all_probes_fail (cs : CollectorSpec) (b : Behaviour)
    (t0 t1 ts : Int) (q : String) (p : Option Params) (st : List String)
    (df : DataFrame) (hp : b (st.length + 1) q = .rows df)
    (hrest : ∀ n s, st.length + 2 ≤ n → b n s = .err) :
    collect_metrics cs b t0 t1 ts q p st =
      (.ok (some (.frame df),
        { query := q, params := p, execution_time := t1 - t0,
          row_count := df.rows.length, timestamp := ts,
          indexes_used := [], table_scans := 0, temp_tables := 0,
          memory_used := none }),
       st ++ [cs.armStmt, q, cs.idxStmt, cs.scanStmt, cs.tmpStmt,
         cs.memStmt]) := by
  have hq : execute_query b (st ++ [cs.armStmt]) q p true true =
      (.ok (some (.frame df)), (st ++ [cs.armStmt]) ++ [q]) :=
    execq_rows b _ q p true df (by simpa using hp)
  rw [collect_metrics_ok cs b t0 t1 ts q p st _ _ hq]
  have l2 : ((st ++ [cs.armStmt]) ++ [q]).length = st.length + 2 := by simp
  have hidx : get_used_indexes cs b ((st ++ [cs.armStmt]) ++ [q]) =
      ([], ((st ++ [cs.armStmt]) ++ [q]) ++ [cs.idxStmt]) :=
    indexListProbe_err b _ cs.idxStmt cs.idxCol
      (by rw [l2]; exact hrest _ _ (by omega))
  have hscan : get_table_scans cs b
        ((((st ++ [cs.armStmt]) ++ [q])) ++ [cs.idxStmt]) =
      (0, (((st ++ [cs.armStmt]) ++ [q]) ++ [cs.idxStmt]) ++ [cs.scanStmt]) :=
    intStatusProbe_err b _ cs.scanStmt cs.scanCol
      (by simp only [List.length_append, List.length_cons, List.length_nil]
          exact hrest _ _ (by omega))
  have htmp : get_temp_tables cs b
        (((((st ++ [cs.armStmt]) ++ [q])) ++ [cs.idxStmt]) ++ [cs.scanStmt]) =
      (0, ((((st ++ [cs.armStmt]) ++ [q]) ++ [cs.idxStmt]) ++ [cs.scanStmt])
        ++ [cs.tmpStmt]) :=
    intStatusProbe_err b _ cs.tmpStmt cs.tmpCol
      (by simp only [List.length_append, List.length_cons, List.length_nil]
          exact hrest _ _ (by omega))
  have hmem : get_memory_usage cs b
        ((((((st ++ [cs.armStmt]) ++ [q])) ++ [cs.idxStmt]) ++ [cs.scanStmt])
          ++ [cs.tmpStmt]) =
      (none, (((((st ++ [cs.armStmt]) ++ [q]) ++ [cs.idxStmt])
        ++ [cs.scanStmt]) ++ [cs.tmpStmt]) ++ [cs.memStmt]) :=
    optIntProbe_err b _ cs.memStmt cs.memCol
      (by simp only [List.length_append, List.length_cons, List.length_nil]
          exact hrest _ _ (by omega))
  rw [hidx]
  simp only []
  rw [hscan]
  simp only []
  rw [htmp]
  simp only []
  rw [hmem]
  simp [rowCountOf, List.append_assoc]

lemma indexListProbe_noack (b : Behaviour) (st : List String)
    (stmt col : String) (hb : b st.length stmt ≠ .ack) :
    (indexListProbe b st stmt col).2 = st ++ [stmt] := by
  rw [indexListProbe_trace]
  exact execq_noack b st stmt none false hb

lemma intStatusProbe_noack (b : Behaviour) (st : List String)
    (stmt col : String) (hb : b st.length stmt ≠ .ack) :
    (intStatusProbe b st stmt col).2 = st ++ [stmt] := by
  rw [intStatusProbe_trace]
  exact execq_noack b st stmt none false hb

lemma optIntProbe_noack (b : Behaviour) (st : List String)
    (stmt col : String) (hb : b st.length stmt ≠ .ack) :
    (optIntProbe b st stmt col).2 = st ++ [stmt] := by
  rw [optIntProbe_trace]
  exact execq_noack b st stmt none false hb

lemma collect_trace_noack (cs : CollectorSpec) (b : Behaviour)
    (t0 t1 ts : Int) (q : String) (p : Option Params) (st : List String)
    (df : DataFrame) (hnoack : ∀ n s, b n s ≠ .ack)
    (hp : b (st.length + 1) q = .rows df) :
    isOkB (collect_metrics cs b t0 t1 ts q p st).1 = true ∧
    (collect_metrics cs b t0 t1 ts q p st).2 =
      st ++ [cs.armStmt, q, cs.idxStmt, cs.scanStmt, cs.tmpStmt,
        cs.memStmt] := by
  have hq : execute_query b (st ++ [cs.armStmt]) q p true true =
      (.ok (some (.frame df)), (st ++ [cs.armStmt]) ++ [q]) :=
    execq_rows b _ q p true df (by simpa using hp)
  rw [collect_metrics_ok cs b t0 t1 ts q p st _ _ hq]
  have h1 : (get_used_indexes cs b ((st ++ [cs.armStmt]) ++ [q])).2 =
      ((st ++ [cs.armStmt]) ++ [q]) ++ [cs.idxStmt] :=
    indexListProbe_noack b _ cs.idxStmt cs.idxCol (hnoack _ _)
  have h2 : (get_table_scans cs b
        (((st ++ [cs.armStmt]) ++ [q]) ++ [cs.idxStmt])).2 =
      (((st ++ [cs.armStmt]) ++ [q]) ++ [cs.idxStmt]) ++ [cs.scanStmt] :=
    intStatusProbe_noack b _ cs.scanStmt cs.scanCol (hnoack _ _)
  have h3 : (get_temp_tables cs b
        ((((st ++ [cs.armStmt]) ++ [q]) ++ [cs.idxStmt]) ++ [cs.scanStmt])).2 =
      ((((st ++ [cs.armStmt]) ++ [q]) ++ [cs.idxStmt]) ++ [cs.scanStmt])
        ++ [cs.tmpStmt] :=
    intStatusProbe_noack b _ cs.tmpStmt cs.tmpCol (hnoack _ _)
  have h4 : (get_memory_usage cs b
        (((((st ++ [cs.armStmt]) ++ [q]) ++ [cs.idxStmt]) ++ [cs.scanStmt])
          ++ [cs.tmpStmt])).2 =
      (((((st ++ [cs.armStmt]) ++ [q]) ++ [cs.idxStmt]) ++ [cs.scanStmt])
        ++ [cs.tmpStmt]) ++ [cs.memStmt] :=
    optIntProbe_noack b _ cs.memStmt cs.memCol (hnoack _ _)
  refine ⟨rfl, ?_⟩
  rw [h1, h2, h3, h4]
  simp [List.append_assoc]

lemma collect_probes_run (cs : CollectorSpec) (b : Behaviour)
    (t0 t1 ts : Int) (q : String) (p : Option Params) (st : List String)
    (hq : primaryOk b (st.length + 1) q = true) :
    isOkB (collect_metrics cs b t0 t1 ts q p st).1 = true ∧
    q ∈ (collect_metrics cs b t0 t1 ts q p st).2.drop st.length ∧
    cs.idxStmt ∈ (collect_metrics cs b t0 t1 ts q p st).2.drop st.length ∧
    cs.scanStmt ∈ (collect_metrics cs b t0 t1 ts q p st).2.drop st.length ∧
    cs.tmpStmt ∈ (collect_metrics cs b t0 t1 ts q p st).2.drop st.length ∧
    cs.memStmt ∈ (collect_metrics cs b t0 t1 ts q p st).2.drop st.length := by
  obtain ⟨r, st2, hqe, hst2⟩ :=
    execq_ok_of_primaryOk b (st ++ [cs.armStmt]) q p (by simpa using hq)
  rw [collect_metrics_ok cs b t0 t1 ts q p st st2 r hqe]
  obtain ⟨tq, hq2, hqm⟩ : ∃ tq, st2 = (st ++ [cs.armStmt]) ++ tq ∧ q ∈ tq := by
    rcases hst2 with h | h
    · exact ⟨[q], h, by simp⟩
    · exact ⟨[q, q], h, by simp⟩
  obtain ⟨tI, hI, hIm⟩ := indexListProbe_tail b st2 cs.idxStmt cs.idxCol
  have hI2 : (get_used_indexes cs b st2).2 = st2 ++ tI := hI
  obtain ⟨tS, hS, hSm⟩ :=
    intStatusProbe_tail b (st2 ++ tI) cs.scanStmt cs.scanCol
  have hS2 : (get_table_scans cs b (st2 ++ tI)).2 = (st2 ++ tI) ++ tS := hS
  obtain ⟨tT, hT, hTm⟩ :=
    intStatusProbe_tail b ((st2 ++ tI) ++ tS) cs.tmpStmt cs.tmpCol
  have hT2 : (get_temp_tables cs b ((st2 ++ tI) ++ tS)).2 =
      ((st2 ++ tI) ++ tS) ++ tT := hT
  obtain ⟨tM, hM, hMm⟩ :=
    optIntProbe_tail b (((st2 ++ tI) ++ tS) ++ tT) cs.memStmt cs.memCol
  have hM2 : (get_memory_usage cs b (((st2 ++ tI) ++ tS) ++ tT)).2 =
      (((st2 ++ tI) ++ tS) ++ tT) ++ tM := hM
  refine ⟨rfl, ?_, ?_, ?_, ?_, ?_⟩ <;>
    rw [hI2, hS2, hT2, hM2, hq2] <;>
    simp [List.append_assoc, List.drop_left, List.mem_append,
      hqm, hIm, hSm, hTm, hMm]

lemma collect_scans_nonneg (cs : CollectorSpec) (b : Behaviour)
    (t0 t1 ts : Int) (q : String) (p : Option Params) (st : List String)
    (hc : CellsNonneg b) :
    ∀ r m, (collect_metrics cs b t0 t1 ts q p st).1 = .ok (r, m) →
      0 ≤ m.table_scans ∧ 0 ≤ m.temp_tables := by
  intro r m h
  cases hpo : primaryOk b (st.length + 1) q
  · obtain ⟨st2, hqe, -⟩ :=
      execq_err_of_not_primaryOk b (st ++ [cs.armStmt]) q p (by simpa using hpo)
    rw [collect_metrics_err cs b t0 t1 ts q p st st2 _ hqe] at h
    simp at h
  · obtain ⟨r2, st2, hqe, -⟩ :=
      execq_ok_of_primaryOk b (st ++ [cs.armStmt]) q p (by simpa using hpo)
    rw [collect_metrics_ok cs b t0 t1 ts q p st st2 r2 hqe] at h
    simp at h
    obtain ⟨-, hm⟩ := h
    rw [← hm]
    constructor
    · exact intStatusProbe_nonneg b _ cs.scanStmt cs.scanCol hc
    · exact intStatusProbe_nonneg b _ cs.tmpStmt cs.tmpCol hc

lemma collect_time_rowcount (cs : CollectorSpec) (b : Behaviour)
    (t0 t1 ts : Int) (q : String) (p : Option Params) (st : List String)
    (ht : t0 ≤ t1) (hq : primaryOk b (st.length + 1) q = true) :
    ∃ r m, (collect_metrics cs b t0 t1 ts q p st).1 = .ok (r, m)
      ∧ 0 ≤ m.execution_time
      ∧ (∀ df, r = some (.frame df) → m.row_count = df.rows.length)
      ∧ ((r = some .completion ∨ r = none) → m.row_count = 0) := by
  obtain ⟨r, st2, hqe, -⟩ :=
    execq_ok_of_primaryOk b (st ++ [cs.armStmt]) q p (by simpa using hq)
  have heq := collect_metrics_ok cs b t0 t1 ts q p st st2 r hqe
  refine ⟨r,
    { query := q, params := p, execution_time := t1 - t0,
      row_count := rowCountOf r, timestamp := ts,
      indexes_used := (get_used_indexes cs b st2).1,
      table_scans := (get_table_scans cs b (get_used_indexes cs b st2).2).1,
      temp_tables := (get_temp_tables cs b
        (get_table_scans cs b (get_used_indexes cs b st2).2).2).1,
      memory_used := (get_memory_usage cs b
        (get_temp_tables cs b
          (get_table_scans cs b (get_used_indexes cs b st2).2).2).2).1 },
    by rw [heq], ?_, ?_, ?_⟩
  · show 0 ≤ t1 - t0
    omega
  · intro df hdf
    cases hdf
    rfl
  · intro hr
    rcases hr with h | h <;> subst h <;> rfl

/-! ### Claim theorems -/

/-- C1: for every connection behaviour in which the primary query
succeeds, `collect_metrics` (both the MySQL and the PostgreSQL
collector) returns normally, and a `QueryExecutionError` escapes
`collect_metrics` only when the primary query itself fails (and then it
is the error for the primary query). -/
theorem claim1_primary_success_no_throw (b : Behaviour) (t0 t1 ts : Int)
    (q : String) (p : Option Params) (st : List String) :
    (primaryOk b (st.length + 1) q = true →
      isOkB (mysql_collect_metrics b t0 t1 ts q p st).1 = true ∧
      isOkB (pg_collect_metrics b t0 t1 ts q p st).1 = true)
    ∧ (∀ e, (mysql_collect_metrics b t0 t1 ts q p st).1 = .error e →
        primaryOk b (st.length + 1) q = false ∧
          e = PyError.queryExecutionError q)
    ∧ (∀ e, (pg_collect_metrics b t0 t1 ts q p st).1 = .error e →
        primaryOk b (st.length + 1) q = false ∧
          e = PyError.queryExecutionError q) :=
  ⟨fun h => ⟨collect_ok_of_primaryOk mysqlSpec b t0 t1 ts q p st h,
      collect_ok_of_primaryOk pgSpec b t0 t1 ts q p st h⟩,
    fun e he => collect_err_char mysqlSpec b t0 t1 ts q p st e he,
    fun e he => collect_err_char pgSpec b t0 t1 ts q p st e he⟩

/-- C1 witness: a connection answering everything with rows. -/
theorem claim1_witness :
    isOkB (mysql_collect_metrics bRows 0 0 0 "SELECT 1" none []).1 = true ∧
    isOkB (pg_collect_metrics bRows 0 0 0 "SELECT 1" none []).1 = true :=
  (claim1_primary_success_no_throw bRows 0 0 0 "SELECT 1" none []).1 (by rfl)

/-- C2: for every connection behaviour in which the primary query
fails, `collect_metrics` raises `QueryExecutionError` for the primary
query and the only statements ever sent to the connection during the
call are the arm statement and the primary query (no harvest probe is
executed). -/
theorem claim2_primary_failure_aborts (b : Behaviour) (t0 t1 ts : Int)
    (q : String) (p : Option Params) (st : List String)
    (hfail : primaryOk b (st.length + 1) q = false) :
    ((mysql_collect_metrics b t0 t1 ts q p st).1 =
        .error (.queryExecutionError q)
      ∧ ∀ s ∈ (mysql_collect_metrics b t0 t1 ts q p st).2.drop st.length,
          s = "SET profiling = 1" ∨ s = q)
    ∧ ((pg_collect_metrics b t0 t1 ts q p st).1 =
        .error (.queryExecutionError q)
      ∧ ∀ s ∈ (pg_collect_metrics b t0 t1 ts q p st).2.drop st.length,
          s = "SET log_statement_stats = on" ∨ s = q) :=
  ⟨collect_fail_spec mysqlSpec b t0 t1 ts q p st hfail,
   collect_fail_spec pgSpec b t0 t1 ts q p st hfail⟩

/-- C2 witness: a connection failing every statement after the arm. -/
theorem claim2_witness :
    (mysql_collect_metrics bPrimFail 0 0 0 "SELECT 1" none []).1 =
      .error (.queryExecutionError "SELECT 1") ∧
    (pg_collect_metrics bPrimFail 0 0 0 "SELECT 1" none []).1 =
      .error (.queryExecutionError "SELECT 1") := by
  have h := claim2_primary_failure_aborts bPrimFail 0 0 0 "SELECT 1" none []
    (by rfl)
  exact ⟨h.1.1, h.2.1⟩

/-- C3: when the primary query succeeds and the connection rejects every
statement after it, `collect_metrics` still returns successfully with
`indexes_used = []`, `table_scans = 0`, `temp_tables = 0` and
`memory_used = none`, for both collectors. -/
theorem claim3_all_probes_fail_degrades (b : Behaviour) (t0 t1 ts : Int)
    (q : String) (p : Option Params) (st : List String) (df : DataFrame)
    (hp : b (st.length + 1) q = .rows df)
    (hrest : ∀ n s, st.length + 2 ≤ n → b n s = .err) :
    (∃ m, (mysql_collect_metrics b t0 t1 ts q p st).1 =
        .ok (some (.frame df), m)
      ∧ m.indexes_used = [] ∧ m.table_scans = 0 ∧ m.temp_tables = 0
      ∧ m.memory_used = none)
    ∧ (∃ m, (pg_collect_metrics b t0 t1 ts q p st).1 =
        .ok (some (.frame df), m)
      ∧ m.indexes_used = [] ∧ m.table_scans = 0 ∧ m.temp_tables = 0
      ∧ m.memory_used = none) := by
  unfold mysql_collect_metrics pg_collect_metrics
  constructor
  · exact ⟨_, by rw [collect_all_probes_fail mysqlSpec b t0 t1 ts q p st df
      hp hrest], rfl, rfl, rfl, rfl⟩
  · exact ⟨_, by rw [collect_all_probes_fail pgSpec b t0 t1 ts q p st df
      hp hrest], rfl, rfl, rfl, rfl⟩

/-- C3 witness: a connection that accepts the arm and the primary query
and rejects everything after. -/
theorem claim3_witness :
    (∃ m, (mysql_collect_metrics bStopAfterPrimary 0 0 0 "SELECT 1"
        none []).1 = .ok (some (.frame dfE), m)
      ∧ m.indexes_used = [] ∧ m.table_scans = 0 ∧ m.temp_tables = 0
      ∧ m.memory_used = none)
    ∧ (∃ m, (pg_collect_metrics bStopAfterPrimary 0 0 0 "SELECT 1"
        none []).1 = .ok (some (.frame dfE), m)
      ∧ m.indexes_used = [] ∧ m.table_scans = 0 ∧ m.temp_tables = 0
      ∧ m.memory_used = none) :=
  claim3_all_probes_fail_degrades bStopAfterPrimary 0 0 0 "SELECT 1" none []
    dfE (by rfl)
    (fun n s hn => by
      simp only [List.length_nil] at hn
      unfold bStopAfterPrimary
      rw [if_neg (by omega)])

/-- C4: with a stub connection that never answers "no result set" and
gives the primary query a tabular result, each collector sends exactly
its backend-specific statement sequence, in order: arm, the primary
query, then the four harvest probes with the exact backend statement
texts, and the call returns normally. -/
theorem claim4_statement_sequence (b : Behaviour) (t0 t1 ts : Int)
    (q : String) (p : Option Params) (st : List String) (df : DataFrame)
    (hnoack : ∀ n s, b n s ≠ Outcome.ack)
    (hp : b (st.length + 1) q = .rows df) :
    ((mysql_collect_metrics b t0 t1 ts q p st).2 =
        st ++ ["SET profiling = 1", q,
          "SELECT index_name FROM information_schema.statistics WHERE table_schema = DATABASE()",
          "SHOW STATUS LIKE \x27Handler_read%\x27",
          "SHOW STATUS LIKE \x27Created_tmp%\x27",
          "SHOW STATUS LIKE \x27Memory_used\x27"]
      ∧ isOkB (mysql_collect_metrics b t0 t1 ts q p st).1 = true)
    ∧ ((pg_collect_metrics b t0 t1 ts q p st).2 =
        st ++ ["SET log_statement_stats = on", q,
          "SELECT indexname FROM pg_indexes WHERE schemaname = current_schema()",
          "SELECT COALESCE(sum(seq_scan), 0) as scans FROM pg_stat_all_tables",
          "SELECT COALESCE(sum(temp_files), 0) as temp_tables FROM pg_stat_database",
          "SELECT setting::bigint * pg_size_bytes(unit) as bytes FROM pg_settings WHERE name = \x27work_mem\x27"]
      ∧ isOkB (pg_collect_metrics b t0 t1 ts q p st).1 = true) := by
  have hm := collect_trace_noack mysqlSpec b t0 t1 ts q p st df hnoack hp
  have hpg := collect_trace_noack pgSpec b t0 t1 ts q p st df hnoack hp
  exact ⟨⟨hm.2, hm.1⟩, ⟨hpg.2, hpg.1⟩⟩

/-- C4 witness: an all-rows stub connection from the empty trace. -/
theorem claim4_witness :
    (mysql_collect_metrics bRows 0 0 0 "SELECT 1" none []).2 =
      ["SET profiling = 1", "SELECT 1",
        "SELECT index_name FROM information_schema.statistics WHERE table_schema = DATABASE()",
        "SHOW STATUS LIKE \x27Handler_read%\x27",
        "SHOW STATUS LIKE \x27Created_tmp%\x27",
        "SHOW STATUS LIKE \x27Memory_used\x27"] ∧
    (pg_collect_metrics bRows 0 0 0 "SELECT 1" none []).2 =
      ["SET log_statement_stats = on", "SELECT 1",
        "SELECT indexname FROM pg_indexes WHERE schemaname = current_schema()",
        "SELECT COALESCE(sum(seq_scan), 0) as scans FROM pg_stat_all_tables",
        "SELECT COALESCE(sum(temp_files), 0) as temp_tables FROM pg_stat_database",
        "SELECT setting::bigint * pg_size_bytes(unit) as bytes FROM pg_settings WHERE name = \x27work_mem\x27"] := by
  have h := claim4_statement_sequence bRows 0 0 0 "SELECT 1" none [] dfE
    (fun n s => by simp [bRows]) (by rfl)
  exact ⟨by simpa using h.1.1, by simpa using h.2.1⟩

/-- C5: for every successful primary query (with the two wall-clock
samples in order), the returned record has a non-negative
execution time, row count equal to the number of rows of a tabular
primary result, and row count 0 for a bare completion signal. -/
theorem claim5_time_and_rowcount (b : Behaviour) (t0 t1 ts : Int)
    (q : String) (p : Option Params) (st : List String) (ht : t0 ≤ t1)
    (hq : primaryOk b (st.length + 1) q = true) :
    (∃ r m, (mysql_collect_metrics b t0 t1 ts q p st).1 = .ok (r, m)
      ∧ 0 ≤ m.execution_time
      ∧ (∀ df, r = some (.frame df) → m.row_count = df.rows.length)
      ∧ ((r = some .completion ∨ r = none) → m.row_count = 0))
    ∧ (∃ r m, (pg_collect_metrics b t0 t1 ts q p st).1 = .ok (r, m)
      ∧ 0 ≤ m.execution_time
      ∧ (∀ df, r = some (.frame df) → m.row_count = df.rows.length)
      ∧ ((r = some .completion ∨ r = none) → m.row_count = 0)) :=
  ⟨collect_time_rowcount mysqlSpec b t0 t1 ts q p st ht hq,
   collect_time_rowcount pgSpec b t0 t1 ts q p st ht hq⟩

/-- C5 witness: all-rows stub, clock advancing from 0 to 1. -/
theorem claim5_witness :
    (∃ r m, (mysql_collect_metrics bRows 0 1 0 "SELECT 1" none []).1 =
        .ok (r, m)
      ∧ 0 ≤ m.execution_time
      ∧ (∀ df, r = some (.frame df) → m.row_count = df.rows.length)
      ∧ ((r = some .completion ∨ r = none) → m.row_count = 0))
    ∧ (∃ r m, (pg_collect_metrics bRows 0 1 0 "SELECT 1" none []).1 =
        .ok (r, m)
      ∧ 0 ≤ m.execution_time
      ∧ (∀ df, r = some (.frame df) → m.row_count = df.rows.length)
      ∧ ((r = some .completion ∨ r = none) → m.row_count = 0)) :=
  claim5_time_and_rowcount bRows 0 1 0 "SELECT 1" none [] (by decide)
    (by rfl)

/-- C6: when the arm statement fails but the primary query succeeds,
`collect_metrics` still returns normally and the primary query and all
four harvest probe statements are executed on the connection. -/
theorem claim6_arm_failure_nonfatal (b : Behaviour) (t0 t1 ts : Int)
    (q : String) (p : Option Params) (st : List String)
    (hq : primaryOk b (st.length + 1) q = true) :
    (b st.length "SET profiling = 1" = .err →
      isOkB (mysql_collect_metrics b t0 t1 ts q p st).1 = true
      ∧ q ∈ (mysql_collect_metrics b t0 t1 ts q p st).2.drop st.length
      ∧ "SELECT index_name FROM information_schema.statistics WHERE table_schema = DATABASE()"
          ∈ (mysql_collect_metrics b t0 t1 ts q p st).2.drop st.length
      ∧ "SHOW STATUS LIKE \x27Handler_read%\x27"
          ∈ (mysql_collect_metrics b t0 t1 ts q p st).2.drop st.length
      ∧ "SHOW STATUS LIKE \x27Created_tmp%\x27"
          ∈ (mysql_collect_metrics b t0 t1 ts q p st).2.drop st.length
      ∧ "SHOW STATUS LIKE \x27Memory_used\x27"
          ∈ (mysql_collect_metrics b t0 t1 ts q p st).2.drop st.length)
    ∧ (b st.length "SET log_statement_stats = on" = .err →
      isOkB (pg_collect_metrics b t0 t1 ts q p st).1 = true
      ∧ q ∈ (pg_collect_metrics b t0 t1 ts q p st).2.drop st.length
      ∧ "SELECT indexname FROM pg_indexes WHERE schemaname = current_schema()"
          ∈ (pg_collect_metrics b t0 t1 ts q p st).2.drop st.length
      ∧ "SELECT COALESCE(sum(seq_scan), 0) as scans FROM pg_stat_all_tables"
          ∈ (pg_collect_metrics b t0 t1 ts q p st).2.drop st.length
      ∧ "SELECT COALESCE(sum(temp_files), 0) as temp_tables FROM pg_stat_database"
          ∈ (pg_collect_metrics b t0 t1 ts q p st).2.drop st.length
      ∧ "SELECT setting::bigint * pg_size_bytes(unit) as bytes FROM pg_settings WHERE name = \x27work_mem\x27"
          ∈ (pg_collect_metrics b t0 t1 ts q p st).2.drop st.length) :=
  ⟨fun _ => collect_probes_run mysqlSpec b t0 t1 ts q p st hq,
   fun _ => collect_probes_run pgSpec b t0 t1 ts q p st hq⟩

/-- C6 witness: a connection failing only its first statement (the arm). -/
theorem claim6_witness :
    (isOkB (mysql_collect_metrics bArmFail 0 0 0 "SELECT 1" none []).1 = true
      ∧ "SELECT 1" ∈ (mysql_collect_metrics bArmFail 0 0 0 "SELECT 1"
          none []).2)
    ∧ (isOkB (pg_collect_metrics bArmFail 0 0 0 "SELECT 1" none []).1 = true
      ∧ "SELECT 1" ∈ (pg_collect_metrics bArmFail 0 0 0 "SELECT 1"
          none []).2) := by
  have h := claim6_arm_failure_nonfatal bArmFail 0 0 0 "SELECT 1" none []
    (by rfl)
  have hm := h.1 (by rfl)
  have hpg := h.2 (by rfl)
  exact ⟨⟨hm.1, by simpa using hm.2.1⟩, ⟨hpg.1, by simpa using hpg.2.1⟩⟩

/-- C7: when the driver signals "no result set" for a statement executed
with `return_results = true`, the executor sends that statement to the
connection twice (once in the tabular-read attempt and again in the
fallback) while still returning a bare completion signal — the claim
that the statement is executed exactly once fails on the code. -/
theorem claim7_double_execution :
    (execute_query bAck [] "SET profiling = 1" none false true).2 =
      ["SET profiling = 1", "SET profiling = 1"]
    ∧ (execute_query bAck [] "SET profiling = 1" none false true).1 =
      .ok (some .completion) :=
  ⟨rfl, rfl⟩

/-- C8 counterexample: a backend stub reporting -7 in the `Value` column
of the MySQL table-scan probe makes `collect_metrics` return a record
with a negative `table_scans`, refuting the claim for arbitrary probe
result values. -/
theorem claim8_counterexample :
    ∃ r m, (mysql_collect_metrics bNegCounter 0 0 0 "SELECT 1" none []).1 =
        .ok (r, m)
      ∧ m.table_scans = -7 ∧ m.table_scans < 0 :=
  ⟨some (.frame dfE), _, rfl, rfl, by decide⟩

/-- C8 (amended): whenever every integer value the connection delivers
through a tabular cell is non-negative, the `table_scans` and
`temp_tables` fields of any record returned by `collect_metrics` are
non-negative (and they are 0 on probe failure). -/
theorem claim8_amended_nonneg (b : Behaviour) (t0 t1 ts : Int)
    (q : String) (p : Option Params) (st : List String)
    (hcells : CellsNonneg b) :
    (∀ r m, (mysql_collect_metrics b t0 t1 ts q p st).1 = .ok (r, m) →
      0 ≤ m.table_scans ∧ 0 ≤ m.temp_tables)
    ∧ (∀ r m, (pg_collect_metrics b t0 t1 ts q p st).1 = .ok (r, m) →
      0 ≤ m.table_scans ∧ 0 ≤ m.temp_tables) :=
  ⟨collect_scans_nonneg mysqlSpec b t0 t1 ts q p st hcells,
   collect_scans_nonneg pgSpec b t0 t1 ts q p st hcells⟩

/-- C8 witness: the all-rows stub delivers no integer cells at all, so
its cells are vacuously non-negative. -/
theorem claim8_witness :
    ∃ r m, (mysql_collect_metrics bRows 0 0 0 "SELECT 1" none []).1 =
        .ok (r, m)
      ∧ 0 ≤ m.table_scans ∧ 0 ≤ m.temp_tables := by
  have hcells : CellsNonneg bRows := by
    intro n s df h row hrow c hc i hpi
    simp [bRows] at h
    rw [← h] at hrow
    simp [dfE] at hrow
  have h := (claim8_amended_nonneg bRows 0 0 0 "SELECT 1" none [] hcells).1
  exact ⟨_, _, rfl, h _ _ rfl⟩

/-- C9: the collector factory returns the matching collector for MYSQL
and POSTGRESQL, raises the unsupported-backend error for any value
outside the closed enumeration, and never touches the connection. -/
theorem claim9_factory_dispatch :
    (∀ st : List String, create_telemetry_collector .mysql st =
      (.ok .mysqlCollector, st))
    ∧ (∀ st : List String, create_telemetry_collector .postgresql st =
      (.ok .postgresqlCollector, st))
    ∧ (∀ (s : String) (st : List String),
        create_telemetry_collector (.other s) st =
          (.error (.unsupportedBackend (.other s)), st))
    ∧ (∀ (d : DatabaseTypeLike) (st : List String),
        (create_telemetry_collector d st).2 = st) := by
  refine ⟨fun st => rfl, fun st => rfl, fun s st => rfl, fun d st => ?_⟩
  cases d <;> rfl

/-- C10: `execute_query` with `raise_on_fail = false` never raises, so
`execute_command`'s failure branch is unreachable and it returns `true`
for every connection behaviour, even when the underlying statement
fails. -/
theorem claim10_execute_command_always_true :
    (∀ (b : Behaviour) (st : List String) (s : String) (p : Option Params)
        (rr : Bool), isOkB (execute_query b st s p false rr).1 = true)
    ∧ (∀ (b : Behaviour) (st : List String) (c : String)
        (p : Option Params), (execute_command b st c p).1 = true) := by
  refine ⟨execq_never_err_lenient, ?_⟩
  intro b st c p
  unfold execute_command
  have h := execq_never_err_lenient b st c p false
  rcases he : execute_query b st c p false false with ⟨r, st1⟩
  rw [he] at h
  rcases r with e | v
  · simp [isOkB] at h
  · rfl

end NeuroDB
